import Mathlib

/-!
Verification development for the spotisave repository.

The definitions in this file are a shallow embedding of the Python source:
  src/spotisave.py, src/spotisaver.py, src/old py/csvsaver.py,
  src/old py/downloader.py.
Each definition's doc comment names the source function and lines it embeds.
-/

/-! ## Filename sanitizer (src/spotisaver.py lines 48-50, src/spotisave.py lines 73-75) -/

/-- The string `valid` of `sanitize_filename`:
`f"-_.() {string.ascii_letters}{string.digits}"`. -/
def validStr : String :=
  "-_.() abcdefghijklmnopqrstuvwxyzABCDEFGHIJKLMNOPQRSTUVWXYZ0123456789"

/-- Python membership test `c in valid` used by the comprehension in
`sanitize_filename`. -/
def validChar (c : Char) : Bool := decide (c ∈ validStr.toList)

/-- The whitespace characters Python's `str.strip()` removes (ASCII ones;
after the filter in `sanitize_filename` only the plain space can occur). -/
def pyWs : List Char := [' ', '\t', '\n', '\r', '\x0b', '\x0c']

/-- Whether `str.strip()` would strip the character. -/
def isWs (c : Char) : Bool := decide (c ∈ pyWs)

/-- Python `str.strip()` on a list of characters: drop stripped characters
from both ends. -/
def pyStrip (l : List Char) : List Char :=
  ((l.dropWhile isWs).reverse.dropWhile isWs).reverse

/-- The character map of `.replace(" ", "_")`. -/
def replUnderscore (c : Char) : Char := if c = ' ' then '_' else c

/-- `sanitize_filename` on the character list:
`"".join(c for c in name if c in valid).strip().replace(" ", "_")`. -/
def sanitizeChars (l : List Char) : List Char :=
  (pyStrip (l.filter validChar)).map replUnderscore

/-- `sanitize_filename(name)` from src/spotisaver.py lines 48-50 (identical in
src/spotisave.py lines 73-75 and src/old py/csvsaver.py lines 101-103). -/
def sanitize_filename (name : String) : String :=
  String.mk (sanitizeChars name.toList)

/-! ### Sanitizer lemmas -/

theorem validChar_mem {c : Char} (h : validChar c = true) : c ∈ validStr.toList :=
  of_decide_eq_true h

theorem valid_space_or_not_ws : ∀ c ∈ validStr.toList, c = ' ' ∨ isWs c = false := by
  decide

theorem dropWhile_eq_self_of (p : Char → Bool) (l : List Char)
    (h : ∀ c ∈ l, p c = false) : l.dropWhile p = l := by
  cases l with
  | nil => rfl
  | cons a t =>
    rw [List.dropWhile_cons]
    simp [h a (List.mem_cons_self a t)]

theorem map_eq_self_of (f : Char → Char) (l : List Char)
    (h : ∀ c ∈ l, f c = c) : l.map f = l := by
  induction l with
  | nil => rfl
  | cons a t ih =>
    rw [List.map_cons, h a (List.mem_cons_self a t),
      ih (fun c hc => h c (List.mem_cons_of_mem a hc))]

theorem mem_pyStrip {c : Char} {l : List Char} (h : c ∈ pyStrip l) : c ∈ l := by
  unfold pyStrip at h
  rw [List.mem_reverse] at h
  have h1 := (List.dropWhile_sublist (l := (l.dropWhile isWs).reverse) isWs).mem h
  rw [List.mem_reverse] at h1
  exact (List.dropWhile_sublist isWs).mem h1

theorem mem_sanitizeChars {c : Char} {l : List Char} (hc : c ∈ sanitizeChars l) :
    validChar c = true ∧ isWs c = false := by
  unfold sanitizeChars at hc
  obtain ⟨d, hd, hcd⟩ := List.mem_map.mp hc
  have hdf : d ∈ l.filter validChar := mem_pyStrip hd
  have hdv : validChar d = true := (List.mem_filter.mp hdf).2
  by_cases hsp : d = ' '
  · subst hsp
    have : c = '_' := by rw [← hcd]; rfl
    subst this
    exact ⟨by decide, by decide⟩
  · have : c = d := by rw [← hcd]; unfold replUnderscore; rw [if_neg hsp]
    subst this
    refine ⟨hdv, ?_⟩
    rcases valid_space_or_not_ws c (validChar_mem hdv) with h | h
    · exact absurd h hsp
    · exact h

theorem sanitizeChars_idem (l : List Char) :
    sanitizeChars (sanitizeChars l) = sanitizeChars l := by
  have hnw : ∀ c ∈ sanitizeChars l, isWs c = false :=
    fun c hc => (mem_sanitizeChars hc).2
  have h1 : (sanitizeChars l).filter validChar = sanitizeChars l :=
    List.filter_eq_self.mpr (fun c hc => (mem_sanitizeChars hc).1)
  have h2 : pyStrip (sanitizeChars l) = sanitizeChars l := by
    unfold pyStrip
    rw [dropWhile_eq_self_of _ _ hnw]
    rw [dropWhile_eq_self_of _ _ (fun c hc => hnw c (List.mem_reverse.mp hc))]
    exact List.reverse_reverse _
  have h3 : (sanitizeChars l).map replUnderscore = sanitizeChars l := by
    apply map_eq_self_of
    intro c hc
    unfold replUnderscore
    rw [if_neg]
    intro hsp
    subst hsp
    exact absurd (hnw ' ' hc) (by decide)
  show (pyStrip ((sanitizeChars l).filter validChar)).map replUnderscore = sanitizeChars l
  rw [h1, h2, h3]

/-- C9: the filename sanitizer is idempotent, and on
"Sade: Best Hits? (Live)" its output contains neither a colon nor a
question mark. -/
theorem sanitize_filename_idempotent (x : String) :
    sanitize_filename (sanitize_filename x) = sanitize_filename x
  ∧ ':' ∉ (sanitize_filename "Sade: Best Hits? (Live)").toList
  ∧ '?' ∉ (sanitize_filename "Sade: Best Hits? (Live)").toList := by
  refine ⟨?_, by decide, by decide⟩
  show String.mk (sanitizeChars (String.mk (sanitizeChars x.toList)).toList)
      = String.mk (sanitizeChars x.toList)
  have h : (String.mk (sanitizeChars x.toList)).toList = sanitizeChars x.toList := rfl
  rw [h, sanitizeChars_idem]

/-! ## CSV export target path (src/spotisaver.py lines 227-229) -/

/-- The CSV filename computed in `export_csv`:
`f"{sanitize_filename(playlist['name'])}.csv"`. -/
def export_csv_filename (playlistName : String) : String :=
  sanitize_filename playlistName ++ ".csv"

/-- `os.path.join(out, f"{name}.csv")` as computed in `export_csv`
(the name argument never starts with a separator, so join concatenates). -/
def export_csv_target (out playlistName : String) : String :=
  out ++ "/" ++ export_csv_filename playlistName

/-- The write step of `export_csv` (src/spotisaver.py line 229):
`pd.DataFrame(data).to_csv(path, ...)` is executed unconditionally; the source
contains no validation of the sanitized name and no InvalidNameError, so the
model always returns the written path. -/
def export_csv_write (out playlistName : String) : Except String String :=
  Except.ok (export_csv_target out playlistName)

/-- C8 counterexample: a display name that sanitizes to the empty string does
not make the export fail; the file is written at "<out>/.csv". -/
theorem export_empty_name_counterexample :
    sanitize_filename "???" = ""
  ∧ export_csv_write "/tmp" "???" = Except.ok "/tmp/.csv" :=
  ⟨rfl, rfl⟩

/-- C8 amended: for every display name whose sanitized form is empty, the
export does not raise; it writes the file with an empty stem at "<out>/.csv". -/
theorem export_empty_name (out name : String) (h : sanitize_filename name = "") :
    export_csv_write out name = Except.ok (out ++ "/.csv") := by
  unfold export_csv_write export_csv_target export_csv_filename
  rw [h, String.append_assoc]
  rfl

/-- C8 witness for the amended theorem at a concrete all-invalid name. -/
theorem export_empty_name_witness :
    export_csv_write "/out" "??!?" = Except.ok "/out/.csv" :=
  export_empty_name "/out" "??!?" rfl

/-! ## C10: character set of the sanitizer output -/

theorem valid_space_or_charset :
    ∀ c ∈ validStr.toList,
      c = ' ' ∨ (c.isAlpha = true ∨ c.isDigit = true ∨ c ∈ ['-', '_', '.', '(', ')']) := by
  decide

theorem valid_ascii : ∀ c ∈ validStr.toList, c.toNat ≤ 127 := by
  decide

/-- C10: every character of the sanitizer output is an ASCII letter, an ASCII
digit, or one of the five kept punctuation characters; a name made only of
non-ASCII characters sanitizes to the empty string. -/
theorem sanitize_filename_ascii (name : String) :
    (∀ c ∈ (sanitize_filename name).toList,
      c.isAlpha = true ∨ c.isDigit = true ∨ c ∈ ['-', '_', '.', '(', ')'])
  ∧ ((∀ c ∈ name.toList, 127 < c.toNat) → sanitize_filename name = "") := by
  constructor
  · intro c hc
    have h : c ∈ sanitizeChars name.toList := hc
    have hvw := mem_sanitizeChars h
    rcases valid_space_or_charset c (validChar_mem hvw.1) with hsp | hcs
    · subst hsp
      exact absurd hvw.2 (by decide)
    · exact hcs
  · intro hna
    have hf : name.toList.filter validChar = [] := by
      rw [List.filter_eq_nil_iff]
      intro c hc hv
      have h1 := valid_ascii c (validChar_mem hv)
      have h2 := hna c hc
      omega
    show String.mk (sanitizeChars name.toList) = ""
    unfold sanitizeChars
    rw [hf]
    rfl

/-- C10 witness: a fully non-Latin name sanitizes to the empty string. -/
theorem sanitize_filename_ascii_witness : sanitize_filename "Привет" = "" :=
  (sanitize_filename_ascii "Привет").2 (by decide)

/-! ## Genre aggregation (src/spotisaver.py lines 194-197 and 210,
src/old py/csvsaver.py lines 48-52 and 65) -/

/-- The genre accumulation loop of `export_csv`:
`genres = set(); for a in artists: genres.update(sp.artist(a["id"])["genres"])`.
The input is the list of per-artist genre lists in artist order; the Python
`set` is modeled as a `Finset`. -/
def track_genres (artistGenres : List (List String)) : Finset String :=
  artistGenres.foldl (fun s g => s ∪ g.toFinset) ∅

/-- `", ".join(...)` applied to one iteration order of the genre set
(src/spotisaver.py line 210). -/
def genresJoin (l : List String) : String := String.intercalate ", " l

theorem track_genres_foldl (gs : List (List String)) :
    ∀ acc : Finset String,
      gs.foldl (fun s g => s ∪ g.toFinset) acc = acc ∪ gs.flatten.toFinset := by
  induction gs with
  | nil => intro acc; simp
  | cons g rest ih =>
    intro acc
    rw [List.foldl_cons, ih, List.flatten_cons, List.toFinset_append,
      Finset.union_assoc]

theorem track_genres_eq_flatten (gs : List (List String)) :
    track_genres gs = gs.flatten.toFinset := by
  rw [track_genres, track_genres_foldl, Finset.empty_union]

/-- C6: the genre set of a track is the duplicate-free union of its artists'
genre lists (membership is membership in some artist's list), the set does not
depend on the order of the artists, and for two artists sharing "pop" with one
unique genre each it has exactly 3 elements. -/
theorem track_genres_union (l₁ l₂ : List (List String)) (h : l₁.Perm l₂) :
    track_genres l₁ = track_genres l₂
  ∧ (∀ g : String, g ∈ track_genres l₁ ↔ ∃ gs ∈ l₁, g ∈ gs)
  ∧ (track_genres [["pop", "rock"], ["pop", "jazz"]]).card = 3 := by
  have hmem : ∀ (l : List (List String)) (g : String),
      g ∈ track_genres l ↔ ∃ gs ∈ l, g ∈ gs := by
    intro l g
    rw [track_genres_eq_flatten, List.mem_toFinset, List.mem_flatten]
  refine ⟨?_, hmem l₁, by decide⟩
  apply Finset.ext
  intro g
  rw [hmem l₁ g, hmem l₂ g]
  exact ⟨fun ⟨gs, hgs, hg⟩ => ⟨gs, h.mem_iff.mp hgs, hg⟩,
    fun ⟨gs, hgs, hg⟩ => ⟨gs, h.mem_iff.mpr hgs, hg⟩⟩

/-- C6 witness: two artists sharing "pop", each with one unique genre, in the
two possible artist orders. -/
theorem track_genres_union_witness :
    track_genres [["pop", "rock"], ["pop", "jazz"]]
        = track_genres [["pop", "jazz"], ["pop", "rock"]]
  ∧ (∀ g : String, g ∈ track_genres [["pop", "rock"], ["pop", "jazz"]]
      ↔ ∃ gs ∈ [["pop", "rock"], ["pop", "jazz"]], g ∈ gs)
  ∧ (track_genres [["pop", "rock"], ["pop", "jazz"]]).card = 3 :=
  track_genres_union [["pop", "rock"], ["pop", "jazz"]]
    [["pop", "jazz"], ["pop", "rock"]]
    (List.Perm.swap ["pop", "jazz"] ["pop", "rock"] [])

/-- C7: the serialization of the genre set is not determined by the set.
Both lists are iteration orders of the same two-element set (the genre set of
a track with artists having genres ["pop"] and ["rock"]), yet `", ".join`
yields different strings for them. -/
theorem genres_join_order_dependent :
    track_genres [["pop"], ["rock"]] = (["pop", "rock"] : List String).toFinset
  ∧ (["pop", "rock"] : List String).toFinset = (["rock", "pop"] : List String).toFinset
  ∧ genresJoin ["pop", "rock"] ≠ genresJoin ["rock", "pop"] := by
  refine ⟨by decide, by decide, by decide⟩

/-! ## Playlist pagination (src/spotisave.py lines 21-30; the same loop is
inlined in src/spotisaver.py export_csv lines 180-185) -/

/-- One page returned by `sp.playlist_tracks` / `sp.next`: its item list and
whether a next-page link is present (`results["next"]`). -/
structure Page (α : Type) where
  items : List α
  next : Bool

/-- The `while results["next"]` loop body of `get_playlist_tracks`: consume
the stream of follow-up pages as long as the current page links to a next
one. -/
def fetchRest {α : Type} : List (Page α) → List α
  | [] => []
  | q :: rest => q.items ++ (if q.next then fetchRest rest else [])

/-- `get_playlist_tracks(playlist_id)` (src/spotisave.py lines 21-30): take
the first page, then extend with follow-up pages while a next link exists.
The catalog is modeled as the first page plus the stream of later pages. -/
def get_playlist_tracks {α : Type} (pages : Page α × List (Page α)) : List α :=
  pages.1.items ++ (if pages.1.next then fetchRest pages.2 else [])

/-- Split a track list into pages of size `p`, as the catalog does. -/
def chunk {α : Type} (p : Nat) (l : List α) : List (List α) :=
  if h : p = 0 ∨ l.length = 0 then []
  else l.take p :: chunk p (l.drop p)
termination_by l.length
decreasing_by
  push_neg at h
  rw [List.length_drop]
  omega

/-- Attach next-page links: every page except the last links to a next one. -/
def pagesOf {α : Type} : List (List α) → List (Page α)
  | [] => []
  | [c] => [⟨c, false⟩]
  | c :: c₂ :: rest => ⟨c, true⟩ :: pagesOf (c₂ :: rest)

/-- Present a page list the way the client sees it: the first page (empty,
with no next link, when the playlist is empty) and the remaining stream. -/
def firstAndRest {α : Type} (qs : List (Page α)) : Page α × List (Page α) :=
  match qs with
  | [] => (⟨[], false⟩, [])
  | q :: rest => (q, rest)

/-- A playlist of tracks `l` served in pages of size `p`. -/
def paginate {α : Type} (p : Nat) (l : List α) : Page α × List (Page α) :=
  firstAndRest (pagesOf (chunk p l))

theorem chunk_flatten {α : Type} (p : Nat) (hp : 0 < p) :
    ∀ (n : Nat) (l : List α), l.length ≤ n → (chunk p l).flatten = l := by
  intro n
  induction n with
  | zero =>
    intro l hl
    have h0 : l = [] := List.eq_nil_of_length_eq_zero (Nat.le_zero.mp hl)
    subst h0
    rw [chunk]
    simp
  | succ n ih =>
    intro l hl
    rw [chunk]
    split
    · rename_i h
      rcases h with h | h
      · omega
      · rw [List.eq_nil_of_length_eq_zero h]
        simp
    · rename_i h
      push_neg at h
      have hdrop : (l.drop p).length ≤ n := by
        rw [List.length_drop]
        omega
      rw [List.flatten_cons, ih (l.drop p) hdrop]
      exact List.take_append_drop p l

theorem get_playlist_tracks_firstAndRest {α : Type} (qs : List (Page α)) :
    get_playlist_tracks (firstAndRest qs) = fetchRest qs := by
  cases qs with
  | nil => simp [get_playlist_tracks, firstAndRest, fetchRest]
  | cons q rest => simp [get_playlist_tracks, firstAndRest, fetchRest]

theorem fetchRest_pagesOf {α : Type} (cs : List (List α)) :
    fetchRest (pagesOf cs) = cs.flatten := by
  induction cs with
  | nil => simp [pagesOf, fetchRest]
  | cons c rest ih =>
    cases rest with
    | nil => simp [pagesOf, fetchRest]
    | cons c₂ rest₂ =>
      show fetchRest (⟨c, true⟩ :: pagesOf (c₂ :: rest₂)) = (c :: c₂ :: rest₂).flatten
      rw [fetchRest, List.flatten_cons]
      simp [ih]

/-- C3: for every playlist and every positive page size, collecting the pages
with the `while results["next"]` loop returns exactly the original track list:
the same length, the original order, and no boundary track dropped or
duplicated, regardless of the number of pages. -/
theorem get_playlist_tracks_pagination {α : Type} (p : Nat) (hp : 0 < p)
    (l : List α) :
    get_playlist_tracks (paginate p l) = l
  ∧ (get_playlist_tracks (paginate p l)).length = l.length := by
  have h : get_playlist_tracks (paginate p l) = l := by
    rw [paginate, get_playlist_tracks_firstAndRest, fetchRest_pagesOf,
      chunk_flatten p hp l.length l (Nat.le_refl _)]
  exact ⟨h, by rw [h]⟩

/-- C3 witness: five tracks in pages of two (the last page is a partial one
and the page boundary falls inside the list). -/
theorem get_playlist_tracks_pagination_witness :
    get_playlist_tracks (paginate 2 [(0 : Nat), 1, 2, 3, 4]) = [0, 1, 2, 3, 4] :=
  (get_playlist_tracks_pagination 2 (by decide) [(0 : Nat), 1, 2, 3, 4]).1

/-! ## Download orchestrator (src/spotisaver.py lines 343-386) -/

/-- The outcome `download_track` would have for one job: a normal return, or
an exception with its message. -/
inductive JobResult where
  | ok : JobResult
  | err : String → JobResult
deriving DecidableEq, Repr

/-- The submission loop of `run_dl` (src/spotisaver.py lines 362-367): for
each row, first call `self.stop_event.is_set()` and break when it returns
true, otherwise submit the job to the executor. `flag k` is the value the
k-th `is_set()` call of the run returns (the event is set by `stop_dl` on
another thread). Returns the submitted jobs. -/
def submitJobs {α : Type} : List α → (Nat → Bool) → Nat → List α
  | [], _, _ => []
  | j :: rest, flag, i => if flag i then [] else j :: submitJobs rest flag (i + 1)

/-- Index of the next `is_set()` call after the submission loop finishes. -/
def submitChecks {α : Type} : List α → (Nat → Bool) → Nat → Nat
  | [], _, i => i
  | _ :: rest, flag, i => if flag i then i + 1 else submitChecks rest flag (i + 1)

/-- What the `as_completed` loop of `run_dl` (lines 369-380) produces: the
final `completed` counter and the `ERROR: {e}` log lines. -/
structure LoopOut where
  completed : Nat
  errLogs : List String
deriving DecidableEq, Repr

/-- The result-collection loop of `run_dl` (lines 369-380): for each future,
in completion order, first check `stop_event.is_set()` and break when set;
otherwise take `future.result()`, catching and logging any exception, and
increment `completed`. -/
def completeLoop : List JobResult → (Nat → Bool) → Nat → LoopOut
  | [], _, _ => ⟨0, []⟩
  | r :: rest, flag, i =>
    if flag i then ⟨0, []⟩
    else
      let out := completeLoop rest flag (i + 1)
      ⟨out.completed + 1,
        match r with
        | JobResult.ok => out.errLogs
        | JobResult.err m => ("ERROR: " ++ m) :: out.errLogs⟩

/-- Whether `SpotiSaverApp` has a `start_btn` attribute when `run_dl` reaches
its last two lines (385-386). `build_downloader` (lines 302-305) creates the
Start and Stop buttons without assigning them to attributes, and no other
method assigns `self.start_btn`, so the attribute never exists. -/
def hasStartBtn : Bool := false

/-- The observable outcome of one `run_dl` invocation. -/
structure RunSummary where
  total : Nat
  completed : Nat
  dispatched : List JobResult
  errLogs : List String
deriving DecidableEq, Repr

/-- `SpotiSaverApp.run_dl` (src/spotisaver.py lines 347-386). `jobs` is the
outcome each row's `download_track` call would have; `order` is the order in
which `as_completed` yields the submitted futures (any permutation of the
dispatched list); `flag` gives the successive `stop_event.is_set()` answers.
All dispatched jobs are executed by the pool: `ThreadPoolExecutor.__exit__`
waits for them even after a break. After the loops, line 385 evaluates
`self.start_btn.config(...)`, which raises AttributeError because the
attribute does not exist; the second component records that exception. -/
def run_dl (jobs order : List JobResult) (flag : Nat → Bool) :
    RunSummary × Except String Unit :=
  let dispatched := submitJobs jobs flag 0
  let out := completeLoop order flag (submitChecks jobs flag 0)
  ({ total := jobs.length, completed := out.completed,
     dispatched := dispatched, errLogs := out.errLogs },
   if hasStartBtn then Except.ok ()
   else Except.error "AttributeError: SpotiSaverApp object has no attribute start_btn")

theorem submitJobs_append {α : Type} (jobs : List α) (flag : Nat → Bool) :
    ∀ i, ∃ rest, jobs = submitJobs jobs flag i ++ rest := by
  induction jobs with
  | nil => intro i; exact ⟨[], rfl⟩
  | cons j tail ih =>
    intro i
    by_cases hf : flag i = true
    · exact ⟨j :: tail, by rw [submitJobs, if_pos hf]; rfl⟩
    · obtain ⟨r, hr⟩ := ih (i + 1)
      refine ⟨r, ?_⟩
      rw [submitJobs, if_neg hf, List.cons_append]
      exact congrArg (j :: ·) hr

theorem submitJobs_flag_false {α : Type} (jobs : List α) (flag : Nat → Bool) :
    ∀ i k, k < (submitJobs jobs flag i).length → flag (i + k) = false := by
  induction jobs with
  | nil => intro i k hk; simp [submitJobs] at hk
  | cons j tail ih =>
    intro i k hk
    by_cases hf : flag i = true
    · rw [submitJobs, if_pos hf] at hk
      simp at hk
    · rw [submitJobs, if_neg hf] at hk
      cases k with
      | zero =>
        cases hfc : flag i with
        | false => simpa using hfc
        | true => exact absurd hfc hf
      | succ k₂ =>
        rw [List.length_cons] at hk
        have h2 := ih (i + 1) k₂ (by omega)
        have harith : i + (k₂ + 1) = i + 1 + k₂ := by omega
        rw [harith]
        exact h2

theorem completeLoop_le (order : List JobResult) :
    ∀ (flag : Nat → Bool) (i : Nat),
      (completeLoop order flag i).completed ≤ order.length := by
  induction order with
  | nil => intro flag i; exact Nat.le_refl 0
  | cons r rest ih =>
    intro flag i
    by_cases hf : flag i = true
    · rw [completeLoop, if_pos hf]
      exact Nat.zero_le _
    · rw [completeLoop, if_neg hf]
      show (completeLoop rest flag (i + 1)).completed + 1 ≤ rest.length + 1
      exact Nat.succ_le_succ (ih flag (i + 1))

/-- C1 amended: cancellation in `run_dl`. The dispatched jobs form the initial
segment of the job list; every `is_set()` check made before submitting a job
returned false, so once the signal is observed (the event stays set) no
further job is submitted; the final completed count never exceeds the number
of dispatched jobs, which never exceeds the total captured at run start.
(Dispatched jobs all execute, but those finishing after the signal is
observed are not counted: see the counterexample.) -/
theorem run_dl_cancellation (jobs order : List JobResult) (flag : Nat → Bool)
    (hmono : ∀ i j, i ≤ j → flag i = true → flag j = true)
    (hperm : order.Perm (submitJobs jobs flag 0)) :
    (∃ rest, jobs = (run_dl jobs order flag).1.dispatched ++ rest)
  ∧ (∀ i k, flag i = true → i ≤ k →
      k < (run_dl jobs order flag).1.dispatched.length → False)
  ∧ (run_dl jobs order flag).1.completed ≤ (run_dl jobs order flag).1.dispatched.length
  ∧ (run_dl jobs order flag).1.dispatched.length ≤ (run_dl jobs order flag).1.total := by
  have hd : (run_dl jobs order flag).1.dispatched = submitJobs jobs flag 0 := rfl
  have ht : (run_dl jobs order flag).1.total = jobs.length := rfl
  have hc : (run_dl jobs order flag).1.completed
      = (completeLoop order flag (submitChecks jobs flag 0)).completed := rfl
  refine ⟨?_, ?_, ?_, ?_⟩
  · rw [hd]; exact submitJobs_append jobs flag 0
  · intro i k hi hik hk
    rw [hd] at hk
    have hkf : flag k = false := by
      have h0 := submitJobs_flag_false jobs flag 0 k hk
      simpa using h0
    rw [hmono i k hik hi] at hkf
    exact Bool.noConfusion hkf
  · rw [hc, hd]
    calc (completeLoop order flag (submitChecks jobs flag 0)).completed
        ≤ order.length := completeLoop_le order flag _
      _ = (submitJobs jobs flag 0).length := hperm.length_eq
  · rw [hd, ht]
    obtain ⟨rest, hrest⟩ := submitJobs_append jobs flag 0
    have hlen : (submitJobs jobs flag 0).length + rest.length = jobs.length := by
      rw [← List.length_append, ← hrest]
    omega

/-- C1 counterexample: with two jobs, both dispatched before the signal, the
signal observed at the very next `is_set()` check (and, the event being
monotone, at every later one), both dispatched jobs execute but the final
completed count is 0, not 2 — already-dispatched jobs are not reflected in
the final completed count. -/
theorem run_dl_cancellation_counterexample :
    (run_dl [JobResult.ok, JobResult.ok] [JobResult.ok, JobResult.ok]
        (fun i => decide (2 ≤ i))).1.dispatched.length = 2
  ∧ (fun i => decide (2 ≤ i))
      (submitChecks [JobResult.ok, JobResult.ok] (fun i => decide (2 ≤ i)) 0) = true
  ∧ (run_dl [JobResult.ok, JobResult.ok] [JobResult.ok, JobResult.ok]
        (fun i => decide (2 ≤ i))).1.completed = 0
  ∧ (run_dl [JobResult.ok, JobResult.ok] [JobResult.ok, JobResult.ok]
        (fun i => decide (2 ≤ i))).1.completed
      ≠ (run_dl [JobResult.ok, JobResult.ok] [JobResult.ok, JobResult.ok]
        (fun i => decide (2 ≤ i))).1.dispatched.length := by
  refine ⟨rfl, rfl, rfl, by decide⟩

/-- C1 witness for the amended cancellation theorem, at one job and a signal
that is never set. -/
theorem run_dl_cancellation_witness :
    (∃ rest, [JobResult.ok]
        = (run_dl [JobResult.ok] (submitJobs [JobResult.ok] (fun _ => false) 0)
            (fun _ => false)).1.dispatched ++ rest)
  ∧ (∀ i k, (fun _ => false : Nat → Bool) i = true → i ≤ k →
      k < (run_dl [JobResult.ok] (submitJobs [JobResult.ok] (fun _ => false) 0)
            (fun _ => false)).1.dispatched.length → False)
  ∧ (run_dl [JobResult.ok] (submitJobs [JobResult.ok] (fun _ => false) 0)
        (fun _ => false)).1.completed
      ≤ (run_dl [JobResult.ok] (submitJobs [JobResult.ok] (fun _ => false) 0)
        (fun _ => false)).1.dispatched.length
  ∧ (run_dl [JobResult.ok] (submitJobs [JobResult.ok] (fun _ => false) 0)
        (fun _ => false)).1.dispatched.length
      ≤ (run_dl [JobResult.ok] (submitJobs [JobResult.ok] (fun _ => false) 0)
        (fun _ => false)).1.total :=
  run_dl_cancellation [JobResult.ok] (submitJobs [JobResult.ok] (fun _ => false) 0)
    (fun _ => false) (fun _ _ _ hf => hf) (List.Perm.refl _)

/-- C2: per-job failure isolation holds inside the loops — on a run of two
jobs that both raise, each exception is caught and logged as `ERROR: {e}` and
the completed count still reaches the total, one outcome per submitted job —
but an exception does escape `run_dl`: its final line reads the nonexistent
`start_btn` attribute and raises AttributeError on every run. -/
theorem run_dl_attribute_error :
    (run_dl [JobResult.err "boom", JobResult.err "crash"]
        [JobResult.err "boom", JobResult.err "crash"] (fun _ => false)).1.completed = 2
  ∧ (run_dl [JobResult.err "boom", JobResult.err "crash"]
        [JobResult.err "boom", JobResult.err "crash"] (fun _ => false)).1.errLogs
      = ["ERROR: boom", "ERROR: crash"]
  ∧ (run_dl [JobResult.err "boom", JobResult.err "crash"]
        [JobResult.err "boom", JobResult.err "crash"] (fun _ => false)).2
      = Except.error "AttributeError: SpotiSaverApp object has no attribute start_btn" :=
  ⟨rfl, rfl, rfl⟩

/-! ## Per-track record extraction (src/spotisaver.py export_csv lines 190-224,
src/old py/csvsaver.py extract_track_info lines 34-79) -/

/-- One artist object of a track. -/
structure ArtistV where
  id : String
  name : String
deriving DecidableEq, Repr

/-- The album object of a track (`label` is read with `.get("label", "")`). -/
structure AlbumV where
  name : String
  release_date : String
  label : Option String
deriving DecidableEq, Repr

/-- A playable track object. -/
structure TrackV where
  uri : String
  name : String
  album : AlbumV
  artists : List ArtistV
  duration_ms : Int
  popularity : Int
  explicit : Bool
deriving DecidableEq, Repr

/-- One playlist item: `track` is None for a removed or local track. -/
structure TrackItem where
  track : Option TrackV
  added_by : String
  added_at : String
deriving DecidableEq, Repr

/-- One exported row (the twelve audio-feature columns are the constant 0 and
are omitted; the genre set is kept as a set, its serialization is modeled by
`genresJoin`). -/
structure CsvRow where
  uri : String
  name : String
  album : String
  artistNames : String
  release_date : String
  duration_ms : Int
  popularity : Int
  explicit : Bool
  added_by : String
  added_at : String
  genres : Finset String
  label : String
deriving DecidableEq

/-- The body of the per-item loop of `export_csv` (src/spotisaver.py lines
190-224). `tr = t["track"]` is None for a removed/local entry, and the next
access `tr["artists"]` then raises TypeError; otherwise one record is built.
`genresOf a` is what `sp.artist(a)["genres"]` returns. -/
def export_row (genresOf : String → List String) (t : TrackItem) :
    Except String CsvRow :=
  match t.track with
  | none => Except.error "TypeError: NoneType object is not subscriptable"
  | some tr => Except.ok
      { uri := tr.uri
        name := tr.name
        album := tr.album.name
        artistNames := String.intercalate ", " (tr.artists.map ArtistV.name)
        release_date := tr.album.release_date
        duration_ms := tr.duration_ms
        popularity := tr.popularity
        explicit := tr.explicit
        added_by := t.added_by
        added_at := t.added_at
        genres := track_genres (tr.artists.map (fun a => genresOf a.id))
        label := tr.album.label.getD "" }

/-- The `for i, t in enumerate(tracks, 1)` loop of `export_csv`: build one
record per item; an exception in any iteration propagates out of the task
(the surrounding `try` has only a `finally`), so nothing is written. -/
def export_rows (genresOf : String → List String) :
    List TrackItem → Except String (List CsvRow)
  | [] => Except.ok []
  | t :: rest =>
    match export_row genresOf t with
    | Except.error e => Except.error e
    | Except.ok row =>
      match export_rows genresOf rest with
      | Except.error e => Except.error e
      | Except.ok rows => Except.ok (row :: rows)

/-- `extract_track_info` of src/old py/csvsaver.py (lines 34-79): a falsy
`track` yields the empty record `{}` (modeled as `none`) instead of raising. -/
def extract_track_info (genresOf : String → List String) (t : TrackItem) :
    Option CsvRow :=
  match t.track with
  | none => none
  | some tr => some
      { uri := tr.uri
        name := tr.name
        album := tr.album.name
        artistNames := String.intercalate ", " (tr.artists.map ArtistV.name)
        release_date := tr.album.release_date
        duration_ms := tr.duration_ms
        popularity := tr.popularity
        explicit := tr.explicit
        added_by := t.added_by
        added_at := t.added_at
        genres := track_genres (tr.artists.map (fun a => genresOf a.id))
        label := tr.album.label.getD "" }

/-- The row list `data = [extract_track_info(t) for t in tracks]` of the old
exporter: one (possibly empty) record per playlist item, positions kept. -/
def csvsaver_rows (genresOf : String → List String) (items : List TrackItem) :
    List (Option CsvRow) :=
  items.map (extract_track_info genresOf)

/-- C4: on a playlist item whose track is absent, the current exporter
(`export_csv` in src/spotisaver.py) raises TypeError and aborts the whole
export instead of emitting an all-empty row, while the older
`extract_track_info` (src/old py/csvsaver.py), which the spec describes,
emits an empty record and keeps the one-row-per-item correspondence. -/
theorem export_row_none_track :
    export_rows (fun _ => []) [{ track := none, added_by := "u1", added_at := "2024-01-01" }]
      = Except.error "TypeError: NoneType object is not subscriptable"
  ∧ csvsaver_rows (fun _ => []) [{ track := none, added_by := "u1", added_at := "2024-01-01" }]
      = [none]
  ∧ (csvsaver_rows (fun _ => []) [{ track := none, added_by := "u1", added_at := "2024-01-01" }]).length
      = 1 :=
  ⟨rfl, rfl, rfl⟩

/-! ## Cover art and muxing (src/spotisaver.py lines 52-62 and 421-475) -/

/-- `download_spotify_cover` (src/spotisaver.py lines 52-62): returns None
when the track's album lists no images, otherwise downloads the first listed
image to `cover.jpg` in the scratch directory and returns that path.
`images` is `sp.track(track_id)["album"]["images"]` (the image URLs). -/
def download_spotify_cover (images : List String) : Option String :=
  match images with
  | [] => none
  | _ :: _ => some "cover.jpg"

/-- The ffmpeg argument list built in `download_track` (src/spotisaver.py
lines 440-471). Python string values are `some`; the cover slot holds the
value returned by `download_spotify_cover`, which may be None. The list
comprehension `[x for x in ff if x != ""]` drops empty strings but keeps
None, and `-id3v2_version 3` is appended for mp3 before the output path. -/
def ffmpeg_args (audio_path : String) (cover : Option String)
    (title artist album release_date year genres label uri fmt out : String) :
    List (Option String) :=
  let ff : List (Option String) :=
    [some "ffmpeg", some "-y",
     some "-i", some audio_path,
     some "-i", cover,
     some "-map", some "0:a",
     some "-map", some "1:v",
     some "-c:a", some "copy",
     some "-c:v", some "mjpeg",
     some "-metadata", some ("title=" ++ title),
     some "-metadata", some ("artist=" ++ artist),
     some "-metadata", some ("album=" ++ album),
     some "-metadata", some (if release_date ≠ "" then "date=" ++ release_date else ""),
     some "-metadata", some (if year ≠ "" then "year=" ++ year else ""),
     some "-metadata", some (if genres ≠ "" then "genre=" ++ genres else ""),
     some "-metadata", some (if label ≠ "" then "publisher=" ++ label else ""),
     some "-metadata", some ("comment=Spotify URI: " ++ uri),
     some "-metadata:s:v", some "title=Album cover",
     some "-metadata:s:v", some "comment=Cover (front)"]
  let ff := ff.filter (fun x => decide (x ≠ some ""))
  let ff := if fmt = "mp3" then ff ++ [some "-id3v2_version", some "3"] else ff
  ff ++ [some out]

/-- `subprocess.run(args, ...)`: every argument must be a string; a None in
the list raises TypeError before any process is started. -/
def subprocess_run (args : List (Option String)) : Except String Unit :=
  if args.all Option.isSome then Except.ok ()
  else Except.error "TypeError: expected str, bytes or os.PathLike object, not NoneType"

/-- The cover-fetch and mux portion of `download_track` (src/spotisaver.py
lines 438-472): fetch the cover for the track's images, build the ffmpeg
argument list and run it. -/
def download_track_mux (images : List String)
    (title artist album release_date year genres label uri fmt out : String) :
    Except String Unit :=
  subprocess_run
    (ffmpeg_args "source.mp3" (download_spotify_cover images)
      title artist album release_date year genres label uri fmt out)

/-- C5: a track with no cover art listed does not take a degraded success
path: the None cover reaches the ffmpeg argument list (the filter only drops
empty strings) and `subprocess.run` raises TypeError, so the job fails.
With at least one image the same call succeeds. -/
theorem download_track_no_cover :
    download_track_mux [] "T" "A" "Al" "2020-01-01" "2020" "pop" "L"
        "spotify:track:x" "mp3" "out.mp3"
      = Except.error "TypeError: expected str, bytes or os.PathLike object, not NoneType"
  ∧ download_track_mux ["http://img"] "T" "A" "Al" "2020-01-01" "2020" "pop" "L"
        "spotify:track:x" "mp3" "out.mp3"
      = Except.ok () :=
  ⟨rfl, rfl⟩
